import Mathlib

/-!
Verification of the camp_finder scraper (src/scraper.go).

Shallow embedding conventions:
* A calendar date is an `Int`: the count of days since a fixed epoch.
  All dates in the program are midnight-UTC values, so Go's
  `endDate.Sub(startDate).Hours()/24` is exactly the day difference and
  `startDate.Add(24h*day)` is exactly `startDate + day`.
* Go maps are association lists; a Go map read `m[k]` yields the zero
  value (here `""`) when the key is absent, embodied by `availLookup`.
* External collaborators (HTTP fetch + JSON decode, `time.Parse`,
  SendGrid, Cloud Scheduler) are passed in as explicit inputs: the fetch
  outcome is an `Option Campground` (`none` = transport/decode failure,
  in which case the Go code keeps the zero-valued `Campground{}`), the
  date parser is a function `String → Option Int` (`none` = parse error,
  in which case the Go code keeps the zero `time.Time`, written `0`
  here), and the side effects performed are recorded as a trace of
  `Event`s in the order the code performs them.
-/

/-- Mirrors `Campsite` (src/scraper.go lines 51-55): `Availabilities` is
the `map[time.Time]string` as an association list. -/
structure Campsite where
  CampsiteID : Int
  CampsiteType : String
  Availabilities : List (Int × String)
  deriving Repr, DecidableEq

/-- Mirrors `Campground` (src/scraper.go lines 46-48): `Campsites` is the
`map[string]Campsite` as an association list keyed by site identifier. -/
structure Campground where
  Campsites : List (String × Campsite)
  deriving Repr, DecidableEq

/-- Mirrors `MessageContent` (src/scraper.go lines 58-63). -/
structure MessageContent where
  Name : String
  Campground : String
  Arrival : String
  Departure : String
  deriving Repr, DecidableEq

/-- `site.Availabilities[date]` in Go: map read returning the zero value
`""` when the date key is absent. -/
def availLookup (site : Campsite) (date : Int) : String :=
  (site.Availabilities.lookup date).getD ""

/-- Mirrors `getDates` (src/scraper.go lines 156-166): one date per day
from `startDate`, `int(endDate.Sub(startDate).Hours()/24)` iterations.
For day-aligned dates that bound is exactly `endDate - startDate`
(truncated to `0` when nonpositive, as the Go loop performs no
iterations then). -/
def getDates (startDate endDate : Int) : List Int :=
  (List.range (endDate - startDate).toNat).map
    (fun day : Nat => startDate + (day : Int))

/-- The inner loop of `getAvailableSites` (src/scraper.go lines 143-151)
for one site: walk the dates, `break` at the first status that is not
exactly "Available", and succeed only on reaching the last index with
every status equal to "Available". An empty date list performs no
iterations, hence never succeeds. -/
def siteFullyAvailable (site : Campsite) : List Int → Bool
  | [] => false
  | [d] => availLookup site d == "Available"
  | d :: rest =>
      (availLookup site d == "Available") && siteFullyAvailable site rest

/-- The matcher of `getAvailableSites` (src/scraper.go lines 140-153)
abstracted over the night list (the spec's `findFullyAvailableSites`):
the site identifiers whose status is "Available" on every night,
in the iteration order of the source mapping. -/
def findFullyAvailableSites (campsites : List (String × Campsite))
    (nights : List Int) : List String :=
  ((campsites.filter (fun p => siteFullyAvailable p.2 nights)).map Prod.fst)

/-- Mirrors `getAvailableSites` (src/scraper.go lines 137-154): builds
the night list with `getDates`, then runs the matcher loop. -/
def getAvailableSites (campground : Campground) (arrival departure : Int) :
    List String :=
  findFullyAvailableSites campground.Campsites (getDates arrival departure)

/-- Mirrors `ScrapeAvailability` (src/scraper.go lines 125-135). The
HTTP fetch and JSON decode are external: `fetched = none` models a
transport or decode failure, after which the Go code ignores the error
and keeps the zero-valued `Campground{}` (an empty site map). -/
def ScrapeAvailability (fetched : Option Campground)
    (arrival departure : Int) : List String :=
  let campground := fetched.getD { Campsites := [] }
  getAvailableSites campground arrival departure

/-- Observable side effects of one dispatcher run, in order. -/
inductive Event where
  | fetch (campgroundID : String)
  | email (campgroundID : String) (sites : List String)
  | cancel (jobName : String)
  deriving Repr, DecidableEq

/-- Outcome of one `ScrapeFromMessage` run: whether a non-nil error was
returned, and the trace of collaborator invocations. -/
structure RunResult where
  returnedError : Bool
  events : List Event
  deriving Repr, DecidableEq

/-- Lines 75-84 of src/scraper.go, after the `Name` guard: read the
campground id and job name, parse the two date strings discarding the
parse errors (`arrival, _ := time.Parse(...)`, zero time on failure),
fetch and match, and on a non-empty match send the email and then delete
the job. Returns nil. -/
def scrapeCore (mc : MessageContent) (fetched : Option Campground)
    (arrival departure : Int) : RunResult :=
  let id := mc.Campground
  let jobName := mc.Name
  let available := ScrapeAvailability fetched arrival departure
  if available.length > 0 then
    { returnedError := false
      events := [Event.fetch id, Event.email id available, Event.cancel jobName] }
  else
    { returnedError := false, events := [Event.fetch id] }

/-- Mirrors `ScrapeFromMessage` (src/scraper.go lines 66-85).
`decodeErr` is the `json.Unmarshal` error flag: the code only logs it,
and `mc` is the message struct as left by the best-effort decode.
The single error return is `errors.New(...)` when `len(Name) <= 0`;
every other path returns nil. `parse` stands for
`time.Parse("2006-1-2", ·)`, whose error is discarded and whose zero
time result is the date `0` here. -/
def ScrapeFromMessage (parse : String → Option Int) (decodeErr : Bool)
    (mc : MessageContent) (fetched : Option Campground) : RunResult :=
  -- the `decodeErr != nil` branch only logs; control flow is unaffected
  if mc.Name.length ≤ 0 then
    { returnedError := true, events := [] }
  else
    scrapeCore mc fetched ((parse mc.Arrival).getD 0) ((parse mc.Departure).getD 0)

/-- The loop test succeeds exactly on a nonempty night list whose every
date reads exactly "Available". -/
theorem siteFullyAvailable_eq_true_iff (site : Campsite) (ds : List Int) :
    siteFullyAvailable site ds = true ↔
      ds ≠ [] ∧ ∀ d ∈ ds, availLookup site d = "Available" := by
  induction ds with
  | nil => simp [siteFullyAvailable]
  | cons d rest ih =>
    cases rest with
    | nil => simp [siteFullyAvailable]
    | cons e tail =>
      simp only [siteFullyAvailable, Bool.and_eq_true, ih]
      constructor
      · rintro ⟨h1, _, h2⟩
        refine ⟨List.cons_ne_nil _ _, ?_⟩
        intro x hx
        rcases List.mem_cons.mp hx with rfl | hx
        · exact beq_iff_eq.mp h1
        · exact h2 x hx
      · rintro ⟨-, h⟩
        refine ⟨beq_iff_eq.mpr (h d (by simp)), List.cons_ne_nil _ _, ?_⟩
        intro x hx
        exact h x (List.mem_cons_of_mem d hx)

/-- Membership in the matcher output, over any association list. -/
theorem mem_findFullyAvailableSites (campsites : List (String × Campsite))
    (nights : List Int) (s : String) :
    s ∈ findFullyAvailableSites campsites nights ↔
      ∃ c, (s, c) ∈ campsites ∧ siteFullyAvailable c nights = true := by
  unfold findFullyAvailableSites
  rw [List.mem_map]
  constructor
  · rintro ⟨⟨s1, c⟩, hp, rfl⟩
    rcases List.mem_filter.mp hp with ⟨hmem, hq⟩
    exact ⟨c, hmem, by simpa using hq⟩
  · rintro ⟨c, hmem, hq⟩
    exact ⟨(s, c), List.mem_filter.mpr ⟨hmem, by simpa using hq⟩, rfl⟩

/-- The matcher output is a sublist of the key list, so unique keys give
a duplicate-free output. -/
theorem findFullyAvailableSites_nodup (campsites : List (String × Campsite))
    (nights : List Int) (hkeys : (campsites.map Prod.fst).Nodup) :
    (findFullyAvailableSites campsites nights).Nodup := by
  unfold findFullyAvailableSites
  exact List.Nodup.sublist
    (List.Sublist.map Prod.fst (List.filter_sublist campsites)) hkeys

/-- C1: over any monthly availability mapping (unique site keys) and any
non-empty night list, a site identifier is in the matcher output iff its
status mapping reads exactly "Available" on every night (absent dates
read "" and are non-matches), and the output has no duplicates. -/
theorem C1_matcher_characterisation (campsites : List (String × Campsite))
    (nights : List Int) (hne : nights ≠ [])
    (hkeys : (campsites.map Prod.fst).Nodup) :
    (∀ s, s ∈ findFullyAvailableSites campsites nights ↔
        ∃ c, (s, c) ∈ campsites ∧ ∀ d ∈ nights, availLookup c d = "Available")
      ∧ (findFullyAvailableSites campsites nights).Nodup := by
  refine ⟨fun s => ?_, findFullyAvailableSites_nodup campsites nights hkeys⟩
  rw [mem_findFullyAvailableSites]
  constructor
  · rintro ⟨c, hmem, hq⟩
    exact ⟨c, hmem, ((siteFullyAvailable_eq_true_iff c nights).mp hq).2⟩
  · rintro ⟨c, hmem, hall⟩
    exact ⟨c, hmem, (siteFullyAvailable_eq_true_iff c nights).mpr ⟨hne, hall⟩⟩

/-- The two-site scenario from the specification: site "A" available on
all three nights, site "B" reserved on the middle one. -/
def siteA : Campsite :=
  { CampsiteID := 1, CampsiteType := "STANDARD"
    Availabilities := [(5, "Available"), (6, "Available"), (7, "Available")] }

def siteB : Campsite :=
  { CampsiteID := 2, CampsiteType := "STANDARD"
    Availabilities := [(5, "Available"), (6, "Reserved"), (7, "Available")] }

def sampleCampsites : List (String × Campsite) := [("A", siteA), ("B", siteB)]

/-- C1 witness: the characterisation instantiated at the specification
scenario (nights 5,6,7; the output there is ["A"]). -/
theorem C1_matcher_characterisation_witness :
    (∀ s, s ∈ findFullyAvailableSites sampleCampsites [5, 6, 7] ↔
        ∃ c, (s, c) ∈ sampleCampsites ∧
          ∀ d ∈ ([5, 6, 7] : List Int), availLookup c d = "Available")
      ∧ (findFullyAvailableSites sampleCampsites [5, 6, 7]).Nodup :=
  C1_matcher_characterisation sampleCampsites [5, 6, 7]
    (by decide) (by decide)

/-- C2: with an empty night list the matcher returns the empty list for
every availability mapping: the per-site loop body never runs, so no
site is ever appended (fail closed, never all sites). -/
theorem C2_empty_nights_empty_result (campsites : List (String × Campsite)) :
    findFullyAvailableSites campsites [] = [] := by
  unfold findFullyAvailableSites
  have h : campsites.filter (fun p => siteFullyAvailable p.2 []) = [] := by
    rw [List.filter_eq_nil_iff]
    intro p hp
    simp [siteFullyAvailable]
  rw [h]
  rfl

/-- C3: for `arrival < departure`, `getDates` returns exactly
`departure - arrival` dates, the i-th being `arrival + i`; the first is
`arrival`, the last is `departure - 1`, and `departure` is excluded. -/
theorem C3_getDates_enumerates_nights (arrival departure : Int)
    (h : arrival < departure) :
    ((getDates arrival departure).length : Int) = departure - arrival
    ∧ (∀ i, i < (departure - arrival).toNat →
        (getDates arrival departure)[i]? = some (arrival + i))
    ∧ (getDates arrival departure).head? = some arrival
    ∧ (getDates arrival departure).getLast? = some (departure - 1)
    ∧ departure ∉ getDates arrival departure := by
  have hn : ((departure - arrival).toNat : Int) = departure - arrival := by omega
  have hlen : (getDates arrival departure).length = (departure - arrival).toNat := by
    unfold getDates
    rw [List.length_map, List.length_range]
  have hget : ∀ i, i < (departure - arrival).toNat →
      (getDates arrival departure)[i]? = some (arrival + i) := by
    intro i hi
    unfold getDates
    rw [List.getElem?_map, List.getElem?_range hi]
    rfl
  refine ⟨by rw [hlen]; exact hn, hget, ?_, ?_, ?_⟩
  · rw [List.head?_eq_getElem?]
    have h0 : 0 < (departure - arrival).toNat := by omega
    rw [hget 0 h0]
    norm_num
  · rw [List.getLast?_eq_getElem?, hlen]
    rw [hget ((departure - arrival).toNat - 1) (by omega)]
    congr 1
    omega
  · intro hmem
    unfold getDates at hmem
    rcases List.mem_map.mp hmem with ⟨day, hday, heq⟩
    rw [List.mem_range] at hday
    omega

/-- C3 witness: stay from day 5 to day 8 gives the three nights 5, 6, 7. -/
theorem C3_getDates_enumerates_nights_witness :
    (5 : Int) < 8
    ∧ (((getDates 5 8).length : Int) = 8 - 5
      ∧ (∀ i, i < ((8 : Int) - 5).toNat →
          (getDates 5 8)[i]? = some (5 + i))
      ∧ (getDates 5 8).head? = some 5
      ∧ (getDates 5 8).getLast? = some (8 - 1)
      ∧ (8 : Int) ∉ getDates 5 8) :=
  ⟨by decide, C3_getDates_enumerates_nights 5 8 (by decide)⟩

/-- C4: for `departure <= arrival` the loop bound is nonpositive, so
`getDates` returns the empty list. -/
theorem C4_getDates_nonpositive_span_empty (arrival departure : Int)
    (h : departure ≤ arrival) :
    getDates arrival departure = [] := by
  unfold getDates
  have h0 : (departure - arrival).toNat = 0 := by omega
  rw [h0]
  rfl

/-- C4 witness: departure day 3 before arrival day 5 gives no nights. -/
theorem C4_getDates_nonpositive_span_empty_witness :
    (3 : Int) ≤ 5 ∧ getDates 5 3 = [] :=
  ⟨by decide, C4_getDates_nonpositive_span_empty 5 3 (by decide)⟩

/-- A concrete stand-in for `time.Parse("2006-1-2", ·)` on the two date
strings used in the sample request (days 5 and 8); every other string
fails to parse. -/
def parseSample (s : String) : Option Int :=
  if s = "2024-3-5" then some 5
  else if s = "2024-3-8" then some 8
  else none

/-- The sample inbound request. -/
def mcSample : MessageContent :=
  { Name := "bob", Campground := "232447"
    Arrival := "2024-3-5", Departure := "2024-3-8" }

/-- C5 divergence: a request whose `Arrival` string cannot be parsed is
not aborted: `ScrapeFromMessage` discards the `time.Parse` error,
returns nil, and still performs the fetch (the zero arrival date is used,
here both parses fail so the stay is empty and no site matches). -/
theorem C5_parse_failure_not_aborted :
    ScrapeFromMessage (fun _ => none) false
        { Name := "bob", Campground := "232447"
          Arrival := "garbage", Departure := "2024-3-8" }
        (some { Campsites := sampleCampsites }) =
      { returnedError := false, events := [Event.fetch "232447"] } := rfl

/-- C6 divergence: on a transport/decode failure (`fetched = none`) the
Go code keeps the zero-valued `Campground{}` and runs the matcher over
it, returning the ordinary empty list — the signature `[]string` has no
error channel, so no `FetchError` can be propagated. -/
theorem C6_fetch_failure_yields_plain_empty_list (arrival departure : Int) :
    ScrapeAvailability none arrival departure = [] := rfl

/-- C7 divergence: a payload whose decode fails (`decodeErr = true`) but
leaves a non-empty `Name` (Go's `json.Unmarshal` fills fields
best-effort before returning a type error) is not rejected: the run
returns nil and proceeds to the fetch. -/
theorem C7_decode_failure_not_aborted :
    ScrapeFromMessage parseSample true
        { Name := "bob", Campground := "232447"
          Arrival := "", Departure := "2024-3-8" }
        none =
      { returnedError := false, events := [Event.fetch "232447"] } := rfl

/-- C8: for a request passing the `Name` guard, a non-empty match sends
the email and then deletes the job — each exactly once, in that order,
after the fetch — while an empty match performs neither (only the fetch
ran; the job is not deleted). -/
theorem C8_notify_then_cancel_exactly_once (parse : String → Option Int)
    (decodeErr : Bool) (mc : MessageContent) (fetched : Option Campground)
    (h : 0 < mc.Name.length) :
    (ScrapeAvailability fetched ((parse mc.Arrival).getD 0)
        ((parse mc.Departure).getD 0) ≠ [] →
      (ScrapeFromMessage parse decodeErr mc fetched).events =
        [Event.fetch mc.Campground,
         Event.email mc.Campground
           (ScrapeAvailability fetched ((parse mc.Arrival).getD 0)
             ((parse mc.Departure).getD 0)),
         Event.cancel mc.Name])
    ∧ (ScrapeAvailability fetched ((parse mc.Arrival).getD 0)
        ((parse mc.Departure).getD 0) = [] →
      (ScrapeFromMessage parse decodeErr mc fetched).events =
        [Event.fetch mc.Campground]) := by
  have hname : ¬ mc.Name.length ≤ 0 := by omega
  unfold ScrapeFromMessage
  rw [if_neg hname]
  unfold scrapeCore
  constructor
  · intro hne
    rw [if_pos (by simpa using List.length_pos.mpr hne)]
  · intro he
    rw [he]
    simp

/-- C8 witness: the sample request against the two-site sample data
matches site "A", so the trace is fetch, email, cancel. -/
theorem C8_notify_then_cancel_exactly_once_witness :
    0 < mcSample.Name.length
    ∧ ((ScrapeAvailability (some { Campsites := sampleCampsites })
          ((parseSample mcSample.Arrival).getD 0)
          ((parseSample mcSample.Departure).getD 0) ≠ [] →
        (ScrapeFromMessage parseSample false mcSample
            (some { Campsites := sampleCampsites })).events =
          [Event.fetch mcSample.Campground,
           Event.email mcSample.Campground
             (ScrapeAvailability (some { Campsites := sampleCampsites })
               ((parseSample mcSample.Arrival).getD 0)
               ((parseSample mcSample.Departure).getD 0)),
           Event.cancel mcSample.Name])
      ∧ (ScrapeAvailability (some { Campsites := sampleCampsites })
          ((parseSample mcSample.Arrival).getD 0)
          ((parseSample mcSample.Departure).getD 0) = [] →
        (ScrapeFromMessage parseSample false mcSample
            (some { Campsites := sampleCampsites })).events =
          [Event.fetch mcSample.Campground])) :=
  ⟨by decide,
   C8_notify_then_cancel_exactly_once parseSample false mcSample
     (some { Campsites := sampleCampsites }) (by decide)⟩

/-- C9: any payload that decodes with a non-empty `Name` yields a nil
return, even when both date strings fail to parse: the parse errors are
discarded, the zero date stands in for both, and the run still fetches
and matches. -/
theorem C9_nonempty_name_returns_nil (parse : String → Option Int)
    (decodeErr : Bool) (mc : MessageContent) (fetched : Option Campground)
    (h : 0 < mc.Name.length) (ha : parse mc.Arrival = none)
    (hd : parse mc.Departure = none) :
    ScrapeFromMessage parse decodeErr mc fetched = scrapeCore mc fetched 0 0
    ∧ (ScrapeFromMessage parse decodeErr mc fetched).returnedError = false
    ∧ Event.fetch mc.Campground ∈
        (ScrapeFromMessage parse decodeErr mc fetched).events := by
  have hname : ¬ mc.Name.length ≤ 0 := by omega
  have hrun : ScrapeFromMessage parse decodeErr mc fetched =
      scrapeCore mc fetched 0 0 := by
    unfold ScrapeFromMessage
    rw [if_neg hname, ha, hd]
    rfl
  refine ⟨hrun, ?_, ?_⟩ <;> rw [hrun] <;> unfold scrapeCore <;> dsimp only <;>
    split <;> simp

/-- C9 witness: a request with unparseable date strings and a non-empty
name runs to completion with a nil return. -/
theorem C9_nonempty_name_returns_nil_witness :
    0 < (MessageContent.mk "bob" "232447" "garbage" "junk").Name.length
    ∧ (fun _ : String => (none : Option Int)) "garbage" = none
    ∧ (fun _ : String => (none : Option Int)) "junk" = none
    ∧ (ScrapeFromMessage (fun _ => none) false
          (MessageContent.mk "bob" "232447" "garbage" "junk") none =
        scrapeCore (MessageContent.mk "bob" "232447" "garbage" "junk") none 0 0
      ∧ (ScrapeFromMessage (fun _ => none) false
          (MessageContent.mk "bob" "232447" "garbage" "junk") none).returnedError
          = false
      ∧ Event.fetch (MessageContent.mk "bob" "232447" "garbage" "junk").Campground ∈
          (ScrapeFromMessage (fun _ => none) false
            (MessageContent.mk "bob" "232447" "garbage" "junk") none).events) :=
  ⟨by decide, rfl, rfl,
   C9_nonempty_name_returns_nil (fun _ => none) false
     (MessageContent.mk "bob" "232447" "garbage" "junk") none
     (by decide) rfl rfl⟩

/-- C10: whenever the run deletes a job, the job name passed is exactly
the payload's `Name` field, and on a non-empty match that deletion does
occur — the requester name and the recurring-job identifier are the same
field. -/
theorem C10_cancel_carries_name (parse : String → Option Int)
    (decodeErr : Bool) (mc : MessageContent) (fetched : Option Campground)
    (h : 0 < mc.Name.length) :
    (∀ j, Event.cancel j ∈ (ScrapeFromMessage parse decodeErr mc fetched).events
      → j = mc.Name)
    ∧ (ScrapeAvailability fetched ((parse mc.Arrival).getD 0)
        ((parse mc.Departure).getD 0) ≠ [] →
      Event.cancel mc.Name ∈
        (ScrapeFromMessage parse decodeErr mc fetched).events) := by
  have hname : ¬ mc.Name.length ≤ 0 := by omega
  unfold ScrapeFromMessage
  rw [if_neg hname]
  unfold scrapeCore
  dsimp only
  constructor
  · intro j hj
    revert hj
    split <;> simp
  · intro hne
    rw [if_pos (by simpa using List.length_pos.mpr hne)]
    simp

/-- C10 witness: the sample matched run deletes job "bob", the payload's
`Name`. -/
theorem C10_cancel_carries_name_witness :
    0 < mcSample.Name.length
    ∧ ((∀ j, Event.cancel j ∈
          (ScrapeFromMessage parseSample false mcSample
            (some { Campsites := sampleCampsites })).events → j = mcSample.Name)
      ∧ (ScrapeAvailability (some { Campsites := sampleCampsites })
          ((parseSample mcSample.Arrival).getD 0)
          ((parseSample mcSample.Departure).getD 0) ≠ [] →
        Event.cancel mcSample.Name ∈
          (ScrapeFromMessage parseSample false mcSample
            (some { Campsites := sampleCampsites })).events)) :=
  ⟨by decide,
   C10_cancel_carries_name parseSample false mcSample
     (some { Campsites := sampleCampsites }) (by decide)⟩
